import Mathlib

/-!
# ReactPhysics3D : `BodyState` and `RigidBody`

A shallow embedding of `body/BodyState.cpp` and `body/RigidBody.h`.

* The functions are written once, over any number type `K` that has `0`, `1`, `2`,
  `+`, `-`, `*` and `/`, and are used with two number types.  In exact arithmetic
  `K` is an ordered field such as `ℚ` or `ℝ`.  In machine arithmetic `K` is `Double`,
  the C++ `double` (IEEE 754 binary64): every operation returns the exact result
  rounded to the nearest double, ties to even, with signed zeros, subnormal
  numbers, overflow to infinity, and NaN.
* `std::sqrt` (from `<cmath>`, reached through `Quaternion::getUnit`) is the
  explicit argument `sqrt : K → K` of every function that normalises a
  quaternion: `Double.sqrt` over `Double`; in exact arithmetic, theorems state
  what they need of it with `SqrtExactAt`.
* A method that mutates `*this` is a function from the old object to the new.
* The state is updated one assignment after the other, in the order of the
  source.
* A method guarded by `assert` returns an `Option`: `none` is the failed
  assertion, after which the program is aborted.
* `RigidBody::getInterpolatedState`, `RigidBody::update` and the constructors of
  `RigidBody` are declared in `RigidBody.h` but defined elsewhere; they are not
  embedded.
-/

namespace reactphysics3d

/-! ## Mathematics library (headers not among the sources) -/

/-- Modelled from the spec: the class `Vector3D` of `mathematics/` is not among the
sources; a 3-vector with components `x`, `y`, `z`. -/
@[ext]
structure Vector3D (K : Type) where
  x : K
  y : K
  z : K
  deriving DecidableEq

/-- Modelled from the spec: the class `Quaternion` of `mathematics/` is not among the
sources; built as `Quaternion(x, y, z, w)`, vector part `(x, y, z)` and scalar part `w`. -/
@[ext]
structure Quaternion (K : Type) where
  x : K
  y : K
  z : K
  w : K
  deriving DecidableEq

/-- Modelled from the spec: the class `Matrix3x3` of `mathematics/` is not among the
sources; a 3×3 matrix given by its rows. -/
@[ext]
structure Matrix3x3 (K : Type) where
  m00 : K
  m01 : K
  m02 : K
  m10 : K
  m11 : K
  m12 : K
  m20 : K
  m21 : K
  m22 : K
  deriving DecidableEq

/-- Modelled from the spec: the class `Kilogram` of `physics/` is not among the sources;
a wrapper of one scalar, read with `getValue()`. -/
@[ext]
structure Kilogram (K : Type) where
  value : K
  deriving DecidableEq

/-- Modelled from the spec: the class `Time` of `physics/` is not among the sources;
a wrapper of one scalar, read with `getValue()`. -/
@[ext]
structure Time (K : Type) where
  value : K
  deriving DecidableEq

section Mathematics

variable {K : Type}

/-- Modelled from the spec: `Kilogram::getValue()`, the wrapped scalar. -/
def Kilogram.getValue (m : Kilogram K) : K := m.value

/-- Modelled from the spec: `Time::getValue()`, the wrapped scalar. -/
def Time.getValue (t : Time K) : K := t.value

/-- Modelled from the spec: `Vector3D::getX()`. -/
def Vector3D.getX (v : Vector3D K) : K := v.x

/-- Modelled from the spec: `Vector3D::getY()`. -/
def Vector3D.getY (v : Vector3D K) : K := v.y

/-- Modelled from the spec: `Vector3D::getZ()`. -/
def Vector3D.getZ (v : Vector3D K) : K := v.z

/-- Modelled from the spec: the default constructor `Vector3D()`, the zero vector
("momentum and angular momentum default to zero"). -/
instance Vector3D.instZero [Zero K] : Zero (Vector3D K) where
  zero := ⟨0, 0, 0⟩

/-- Modelled from the spec: `Vector3D::operator+`, component-wise sum. -/
instance Vector3D.instAdd [Add K] : Add (Vector3D K) where
  add a b := ⟨a.x + b.x, a.y + b.y, a.z + b.z⟩

/-- Modelled from the spec: `Vector3D::operator*(double)`, every component times the
number. -/
instance Vector3D.instHMul [Mul K] : HMul (Vector3D K) K (Vector3D K) where
  hMul a c := ⟨a.x * c, a.y * c, a.z * c⟩

/-- Modelled from the spec: `Matrix3x3::operator*(const Vector3D&)`, the matrix-vector
product, one row per component. -/
instance Matrix3x3.instHMul [Add K] [Mul K] : HMul (Matrix3x3 K) (Vector3D K) (Vector3D K) where
  hMul m v :=
    ⟨m.m00 * v.x + m.m01 * v.y + m.m02 * v.z,
     m.m10 * v.x + m.m11 * v.y + m.m12 * v.z,
     m.m20 * v.x + m.m21 * v.y + m.m22 * v.z⟩

/-- Modelled from the spec: the identity matrix ("identity inverse inertia tensor"). -/
def Matrix3x3.identity [Zero K] [One K] : Matrix3x3 K :=
  ⟨1, 0, 0, 0, 1, 0, 0, 0, 1⟩

/-- Modelled from the spec: the default constructor `Quaternion()`, all components 0. -/
instance Quaternion.instZero [Zero K] : Zero (Quaternion K) where
  zero := ⟨0, 0, 0, 0⟩

/-- Modelled from the spec: `Quaternion::operator+`, the component-wise sum of the two
quaternions as 4-vectors. -/
instance Quaternion.instAdd [Add K] : Add (Quaternion K) where
  add a b := ⟨a.x + b.x, a.y + b.y, a.z + b.z, a.w + b.w⟩

/-- Modelled from the spec: `Quaternion::operator*(double)`, every component times the
number. -/
instance Quaternion.instHMul [Mul K] : HMul (Quaternion K) K (Quaternion K) where
  hMul a c := ⟨a.x * c, a.y * c, a.z * c, a.w * c⟩

/-- Modelled from the spec: `Quaternion::operator*(const Quaternion&)`, the Hamilton
product: scalar part `w₁w₂ - v₁·v₂`, vector part `w₁v₂ + w₂v₁ + v₁×v₂`. -/
instance Quaternion.instMul [Add K] [Sub K] [Mul K] : Mul (Quaternion K) where
  mul a b :=
    ⟨a.w * b.x + b.w * a.x + (a.y * b.z - a.z * b.y),
     a.w * b.y + b.w * a.y + (a.z * b.x - a.x * b.z),
     a.w * b.z + b.w * a.z + (a.x * b.y - a.y * b.x),
     a.w * b.w - (a.x * b.x + a.y * b.y + a.z * b.z)⟩

/-- The sum of the squares of the four components (the square of the norm). -/
def Quaternion.normSq [Add K] [Mul K] (q : Quaternion K) : K :=
  q.x * q.x + q.y * q.y + q.z * q.z + q.w * q.w

/-- Modelled from the spec: `Quaternion::length()`, the square root of the sum of the
squares of the components. -/
def Quaternion.length [Add K] [Mul K] (sqrt : K → K) (q : Quaternion K) : K :=
  sqrt (q.x * q.x + q.y * q.y + q.z * q.z + q.w * q.w)

/-- Modelled from the spec: `Quaternion::getUnit()`, "orientation = normalize(orientation)":
every component divided by the length. -/
def Quaternion.getUnit [Add K] [Mul K] [Div K] (sqrt : K → K) (q : Quaternion K) : Quaternion K :=
  let lengthQuaternion := q.length sqrt
  ⟨q.x / lengthQuaternion, q.y / lengthQuaternion, q.z / lengthQuaternion,
   q.w / lengthQuaternion⟩

/-- The sum of the squares of the three components of a vector. -/
def Vector3D.normSq [Add K] [Mul K] (v : Vector3D K) : K :=
  v.x * v.x + v.y * v.y + v.z * v.z

/-- Modelled from the spec: `Vector3D::length()`, the Euclidean norm, the square root of
the sum of the squares of the components. -/
def Vector3D.length [Add K] [Mul K] (sqrt : K → K) (v : Vector3D K) : K :=
  sqrt (v.x * v.x + v.y * v.y + v.z * v.z)

/-- The function `sqrt` returns the non-negative square root of `x`. -/
def SqrtExactAt [Mul K] [Zero K] [LE K] (sqrt : K → K) (x : K) : Prop :=
  0 ≤ sqrt x ∧ sqrt x * sqrt x = x

end Mathematics

/-! ## `DerivativeBodyState` (header not among the sources) -/

/-- Modelled from the spec: the class `DerivativeBodyState` is not among the sources;
"logically a tuple (linear velocity, force, spin, torque)". -/
@[ext]
structure DerivativeBodyState (K : Type) where
  linearVelocity : Vector3D K
  force : Vector3D K
  spin : Quaternion K
  torque : Vector3D K
  deriving DecidableEq

/-- Modelled from the spec: `DerivativeBodyState::getLinearVelocity()`. -/
def DerivativeBodyState.getLinearVelocity {K : Type} (d : DerivativeBodyState K) : Vector3D K :=
  d.linearVelocity

/-- Modelled from the spec: `DerivativeBodyState::getForce()`. -/
def DerivativeBodyState.getForce {K : Type} (d : DerivativeBodyState K) : Vector3D K :=
  d.force

/-- Modelled from the spec: `DerivativeBodyState::getSpin()`. -/
def DerivativeBodyState.getSpin {K : Type} (d : DerivativeBodyState K) : Quaternion K :=
  d.spin

/-- Modelled from the spec: `DerivativeBodyState::getTorque()`. -/
def DerivativeBodyState.getTorque {K : Type} (d : DerivativeBodyState K) : Vector3D K :=
  d.torque

/-! ## `BodyState` (`BodyState.cpp`) -/

/-- The data members of `BodyState`, as named in `BodyState.cpp` (the header is not among
the sources). -/
@[ext]
structure BodyState (K : Type) where
  position : Vector3D K
  linearMomentum : Vector3D K
  orientation : Quaternion K
  angularMomentum : Vector3D K
  linearVelocity : Vector3D K
  angularVelocity : Vector3D K
  spin : Quaternion K
  inertiaTensorInverse : Matrix3x3 K
  massInverse : Kilogram K
  externalForce : Vector3D K
  externalTorque : Vector3D K
  deriving DecidableEq

namespace BodyState

variable {K : Type} [Zero K] [One K] [Add K] [Sub K] [Mul K] [Div K] [OfNat K 2]

/-- The method `BodyState::recalculate()` (`BodyState.cpp`, lines 50-63). -/
def recalculate (sqrt : K → K) (s : BodyState K) : BodyState K :=
  -- Compute the linear velocity
  let s1 := { s with linearVelocity := s.linearMomentum * s.massInverse.getValue }
  -- Compute the angular velocity
  let s2 := { s1 with angularVelocity := s1.inertiaTensorInverse * s1.angularMomentum }
  -- Normalize the orientation quaternion
  let s3 := { s2 with orientation := s2.orientation.getUnit sqrt }
  -- Compute the spin quaternion
  { s3 with
    spin := Quaternion.mk s3.angularVelocity.getX s3.angularVelocity.getY
              s3.angularVelocity.getZ 0 * s3.orientation * (1 / 2 : K) }

/-- The copy-constructor `BodyState::BodyState(const BodyState&)` (`BodyState.cpp`,
lines 37-42): the ten members of the initializer list are copied; `externalTorque` is not
in the list and is default-constructed. -/
def copyConstruct (bodyState : BodyState K) : BodyState K :=
  { position := bodyState.position
    linearMomentum := bodyState.linearMomentum
    orientation := bodyState.orientation
    angularMomentum := bodyState.angularMomentum
    linearVelocity := bodyState.linearVelocity
    angularVelocity := bodyState.angularVelocity
    spin := bodyState.spin
    inertiaTensorInverse := bodyState.inertiaTensorInverse
    massInverse := bodyState.massInverse
    externalForce := bodyState.externalForce
    externalTorque := 0 }

/-- The method `BodyState::computeAtTime(timeStep, lastDerivativeBodyState)`
(`BodyState.cpp`, lines 68-86). -/
def computeAtTime (sqrt : K → K) (timeStep : Time K)
    (lastDerivativeBodyState : DerivativeBodyState K) (s : BodyState K) : BodyState K :=
  let dt := timeStep.getValue
  -- Compute the position at time t + dt
  let s1 := { s with position := s.position + lastDerivativeBodyState.getLinearVelocity * dt }
  -- Compute the linear momentum at time t + dt
  let s2 := { s1 with linearMomentum := s1.linearMomentum + lastDerivativeBodyState.getForce * dt }
  -- Compute the orientation at time t + dt
  let s3 := { s2 with orientation := s2.orientation + lastDerivativeBodyState.getSpin * dt }
  -- Compute the angular momentum at time t + dt
  let s4 := { s3 with angularMomentum := s3.angularMomentum + lastDerivativeBodyState.getTorque * dt }
  -- Recalculate the secondary values of the body state
  recalculate sqrt s4

/-- The method `BodyState::computeForce(time)` (`BodyState.cpp`, lines 91-94). -/
def computeForce (s : BodyState K) (_time : Time K) : Vector3D K :=
  s.externalForce

/-- The method `BodyState::computeTorque(time)` (`BodyState.cpp`, lines 99-102). -/
def computeTorque (s : BodyState K) (_time : Time K) : Vector3D K :=
  s.externalTorque

/-- Modelled from the spec: `BodyState::getLinearVelocity()` of `BodyState.h`, which is not
among the sources: reads the member ("reading back linear velocity from `current`"). -/
def getLinearVelocity (s : BodyState K) : Vector3D K :=
  s.linearVelocity

/-- Modelled from the spec: `BodyState::getMassInverse()` of `BodyState.h`, which is not
among the sources: reads the member. -/
def getMassInverse (s : BodyState K) : Kilogram K :=
  s.massInverse

/-- Modelled from the spec: `BodyState::setLinearVelocity(v)` of `BodyState.h`, which is
not among the sources: assigns the member, with no re-derivation ("allowing primary fields
to be changed without triggering re-derivation"). -/
def setLinearVelocity (s : BodyState K) (linearVelocity : Vector3D K) : BodyState K :=
  { s with linearVelocity := linearVelocity }

/-- Modelled from the spec: `BodyState::setLinearMomentum(p)` of `BodyState.h`, which is
not among the sources: assigns the member, with no re-derivation. -/
def setLinearMomentum (s : BodyState K) (linearMomentum : Vector3D K) : BodyState K :=
  { s with linearMomentum := linearMomentum }

end BodyState

/-! ## `RigidBody` (`RigidBody.h`) -/

/-- The data members of `RigidBody` (`RigidBody.h`, lines 46-52).  The base class `Body`
and the class `OBB` are not among the sources: the base-class part and the bounding box
are values of two types given as parameters. -/
structure RigidBody (K Body OBB : Type) where
  toBody : Body
  inertiaTensor : Matrix3x3 K
  currentBodyState : BodyState K
  previousBodyState : BodyState K
  isMotionEnabled : Bool
  isCollisionEnabled : Bool
  interpolationFactor : K
  obb : OBB

namespace RigidBody

variable {K Body OBB : Type} [Zero K] [One K] [Add K] [Sub K] [Mul K] [Div K] [OfNat K 2]

/-- The method `RigidBody::getPreviousBodyState()` (`RigidBody.h`, lines 92-94). -/
def getPreviousBodyState (rb : RigidBody K Body OBB) : BodyState K :=
  rb.previousBodyState

/-- The method `RigidBody::setLinearVelocity(linearVelocity)` (`RigidBody.h`,
lines 116-122).  It returns `void` and has no guard, assertion or `throw`: the result is
always a body. -/
def setLinearVelocity (rb : RigidBody K Body OBB) (linearVelocity : Vector3D K) :
    RigidBody K Body OBB :=
  -- Update the linear velocity of the current body state
  let rb1 := { rb with
    currentBodyState := rb.currentBodyState.setLinearVelocity linearVelocity }
  -- Update the linear momentum of the current body state
  { rb1 with
    currentBodyState := rb1.currentBodyState.setLinearMomentum
      (linearVelocity * (1 / rb1.currentBodyState.getMassInverse.getValue)) }

/-- The method `RigidBody::updatePreviousBodyState()` (`RigidBody.h`, lines 125-128): the
assignment `previousBodyState = currentBodyState`.  `BodyState.cpp` defines no
`operator=`, so the assignment is the implicit member-wise one: every member of the current
state is assigned to the previous state ("copies `current` into `previous`"). -/
def updatePreviousBodyState (rb : RigidBody K Body OBB) : RigidBody K Body OBB :=
  { rb with previousBodyState := rb.currentBodyState }

/-- The method `RigidBody::getInertiaTensor()` (`RigidBody.h`, lines 76-78). -/
def getInertiaTensor (rb : RigidBody K Body OBB) : Matrix3x3 K :=
  rb.inertiaTensor

/-- The method `RigidBody::setInertiaTensor(inertiaTensor)` (`RigidBody.h`, lines 81-83). -/
def setInertiaTensor (rb : RigidBody K Body OBB) (inertiaTensor : Matrix3x3 K) :
    RigidBody K Body OBB :=
  { rb with inertiaTensor := inertiaTensor }

/-- The method `RigidBody::getIsMotionEnabled()` (`RigidBody.h`, lines 106-108). -/
def getIsMotionEnabled (rb : RigidBody K Body OBB) : Bool :=
  rb.isMotionEnabled

/-- The method `RigidBody::setIsMotionEnabled(isMotionEnabled)` (`RigidBody.h`,
lines 111-113). -/
def setIsMotionEnabled (rb : RigidBody K Body OBB) (isMotionEnabled : Bool) :
    RigidBody K Body OBB :=
  { rb with isMotionEnabled := isMotionEnabled }

/-- The method `RigidBody::getOBB()` (`RigidBody.h`, lines 131-133). -/
def getOBB (rb : RigidBody K Body OBB) : OBB :=
  rb.obb

end RigidBody

/-- The method `RigidBody::setInterpolationFactor(factor)` (`RigidBody.h`, lines 98-103),
with `assert` active (no `NDEBUG`).  The result `none` is the failed assertion: `abort()`
ends the program and the call does not return.  Otherwise the factor is stored and the
new body is returned. -/
def RigidBody.setInterpolationFactor {K Body OBB : Type} [LinearOrderedField K]
    (rb : RigidBody K Body OBB) (factor : K) : Option (RigidBody K Body OBB) :=
  if factor ≥ 0 ∧ factor ≤ 1 then
    -- Set the factor
    some { rb with interpolationFactor := factor }
  else
    none

/-! ## The number type `double` (IEEE 754 binary64) -/

/-- The values of a C++ `double` (IEEE 754 binary64).  `finite negative mantissa exponent`
is the number `± mantissa * 2 ^ (exponent - 1074)`, with `mantissa < 2 ^ 53`,
`exponent ≤ 2045`, and `2 ^ 52 ≤ mantissa` whenever `0 < exponent` (the subnormal numbers
and the two zeros have exponent 0); then the two infinities and NaN. -/
inductive Double where
  | finite (negative : Bool) (mantissa : Nat) (exponent : Nat)
  | infinite (negative : Bool)
  | nan
  deriving DecidableEq

namespace Double

/-- The double `± m * 2 ^ e` for a mantissa `m ≤ 2 ^ 53` that is already rounded and
`-1074 ≤ e`: a mantissa of `2 ^ 53` is renormalised, and an exponent above 971 overflows to
infinity. -/
def pack (negative : Bool) (m : Nat) (e : Int) : Double :=
  let m2 := if m = 2 ^ 53 then 2 ^ 52 else m
  let e2 := if m = 2 ^ 53 then e + 1 else e
  if e2 > 971 then infinite negative else finite negative m2 (e2 + 1074).toNat

/-- The largest `t` below `2 ^ k` with `2 ^ (t0 + t) ≤ n`, added to `t0`: one bit of `t`
after the other from bit `k - 1` down. -/
def log2Loop (n : Nat) : Nat → Nat → Nat
  | 0, t => t
  | k + 1, t => log2Loop n k (if 2 ^ (t + 2 ^ k) ≤ n then t + 2 ^ k else t)

/-- The double nearest to `± M * 2 ^ E`, ties to the even mantissa (the default rounding
mode), with gradual underflow and overflow to infinity; for `M < 2 ^ 4096`. -/
def roundNearestEven (negative : Bool) (M : Nat) (E : Int) : Double :=
  if M = 0 then finite negative 0 0 else
  let bits : Int := (log2Loop M 12 0 + 1 : Nat)
  let e : Int := max (E + bits - 53) (-1074)
  if e ≤ E then
    pack negative (M * 2 ^ (E - e).toNat) e
  else
    let shift := (e - E).toNat
    let q := M / 2 ^ shift
    let r := M % 2 ^ shift
    let half := 2 ^ (shift - 1)
    pack negative (if r > half ∨ (r = half ∧ q % 2 = 1) then q + 1 else q) e

/-- Unary minus: the sign is flipped. -/
def neg : Double → Double
  | finite s m e => finite (!s) m e
  | infinite s => infinite (!s)
  | nan => nan

/-- Addition: the exact sum, rounded; an exact zero sum of two numbers of opposite signs
is `+0`, and `inf + -inf` is NaN. -/
def add : Double → Double → Double
  | nan, _ => nan
  | _, nan => nan
  | infinite s, infinite t => if s = t then infinite s else nan
  | infinite s, finite _ _ _ => infinite s
  | finite _ _ _, infinite t => infinite t
  | finite s m e, finite t n f =>
    let E := min e f
    let a := m * 2 ^ (e - E)
    let b := n * 2 ^ (f - E)
    if s = t then roundNearestEven s (a + b) ((E : Int) - 1074)
    else if a = b then finite false 0 0
    else if b < a then roundNearestEven s (a - b) ((E : Int) - 1074)
    else roundNearestEven t (b - a) ((E : Int) - 1074)

/-- Multiplication: the exact product, rounded; `0 * inf` is NaN. -/
def mul : Double → Double → Double
  | nan, _ => nan
  | _, nan => nan
  | infinite s, infinite t => infinite (xor s t)
  | infinite s, finite t n _ => if n = 0 then nan else infinite (xor s t)
  | finite s m _, infinite t => if m = 0 then nan else infinite (xor s t)
  | finite s m e, finite t n f =>
    roundNearestEven (xor s t) (m * n) ((e : Int) + (f : Int) - 2148)

/-- Division: the exact quotient, rounded (the quotient is computed to more than 75 bits
and an odd last bit records a non-zero remainder); `x / 0` is an infinity for `x` other
than zero, and `0 / 0` and `inf / inf` are NaN. -/
def div : Double → Double → Double
  | nan, _ => nan
  | _, nan => nan
  | infinite _, infinite _ => nan
  | infinite s, finite t _ _ => infinite (xor s t)
  | finite s _ _, infinite t => finite (xor s t) 0 0
  | finite s m e, finite t n f =>
    if n = 0 then (if m = 0 then nan else infinite (xor s t))
    else
      let q := (m * 2 ^ 128) / n
      let r := (m * 2 ^ 128) % n
      if r = 0 then roundNearestEven (xor s t) q ((e : Int) - (f : Int) - 128)
      else roundNearestEven (xor s t) (2 * q + 1) ((e : Int) - (f : Int) - 129)

/-- The integer square root of `n`, one bit after the other from bit `k - 1` down. -/
def isqrtLoop (n : Nat) : Nat → Nat → Nat
  | 0, r => r
  | k + 1, r => isqrtLoop n k (if (r + 2 ^ k) * (r + 2 ^ k) ≤ n then r + 2 ^ k else r)

/-- The function `std::sqrt`: the exact square root, rounded (the root is computed to more
than 64 bits and an odd last bit records an inexact root); NaN for a negative number. -/
def sqrt : Double → Double
  | nan => nan
  | infinite s => if s then nan else infinite false
  | finite s m e =>
    if m = 0 then finite s 0 0
    else if s then nan
    else
      let k : Nat := if e % 2 = 0 then 128 else 129
      let M := m * 2 ^ k
      let r := isqrtLoop M 96 0
      let E : Int := ((e : Int) - 1074 - (k : Int)) / 2
      if r * r = M then roundNearestEven false r E
      else roundNearestEven false (2 * r + 1) (E - 1)

/-- The number is a zero, `+0` or `-0`. -/
def isZero : Double → Bool
  | finite _ m _ => m == 0
  | _ => false

/-- The number is neither an infinity nor NaN. -/
def isFinite : Double → Bool
  | finite _ _ _ => true
  | _ => false

instance instAdd : Add Double := ⟨add⟩

instance instMul : Mul Double := ⟨mul⟩

instance instDiv : Div Double := ⟨div⟩

instance instNeg : Neg Double := ⟨neg⟩

instance instSub : Sub Double := ⟨fun a b => add a (neg b)⟩

/-- A decimal integer literal, rounded to the nearest double. -/
instance instOfNat (n : Nat) : OfNat Double n := ⟨roundNearestEven false n 0⟩

instance instZero : Zero Double := ⟨finite false 0 0⟩

instance instOne : One Double := ⟨finite false (2 ^ 52) 1022⟩

end Double

/-! ## Example inputs, over any field -/

namespace Example

variable {K : Type} [Field K]

/-- A state whose orientation `(0, 0, 0, 2)` has length 2, with non-zero momenta, a
non-identity inverse inertia tensor and stale secondary values. -/
def state : BodyState K :=
  { position := ⟨1, 2, 3⟩
    linearMomentum := ⟨4, 0, 2⟩
    orientation := ⟨0, 0, 0, 2⟩
    angularMomentum := ⟨2, 4, 6⟩
    linearVelocity := ⟨7, 7, 7⟩
    angularVelocity := ⟨8, 8, 8⟩
    spin := ⟨9, 9, 9, 9⟩
    inertiaTensorInverse := ⟨1, 0, 0, 0, 2, 0, 0, 0, 3⟩
    massInverse := ⟨1 / 2⟩
    externalForce := ⟨0, 1, 0⟩
    externalTorque := ⟨1, 2, 3⟩ }

/-- A derivative whose spin `(0, 0, 0, 2)` stretches the orientation of `state`. -/
def derivative : DerivativeBodyState K :=
  { linearVelocity := ⟨1, 1, 1⟩
    force := ⟨0, 2, 0⟩
    spin := ⟨0, 0, 0, 2⟩
    torque := ⟨2, 0, 0⟩ }

/-- The timestep 1. -/
def timeStep : Time K := ⟨1⟩

/-- The timestep 0. -/
def zeroTimeStep : Time K := ⟨0⟩

/-- The state `state` with the unit orientation `(0, 0, 0, 1)`. -/
def unitState : BodyState K :=
  { (state : BodyState K) with orientation := ⟨0, 0, 0, 1⟩ }

/-- An immovable state: `state` with inverse mass 0 and linear velocity 0. -/
def immovableState : BodyState K :=
  { (state : BodyState K) with massInverse := ⟨0⟩, linearVelocity := 0 }

/-- A rigid body, with no base-class data and no bounding box, whose current state is
`state` and whose previous state is `unitState`. -/
def body : RigidBody K Unit Unit :=
  { toBody := ()
    inertiaTensor := ⟨1, 0, 0, 0, 1 / 2, 0, 0, 0, 1 / 3⟩
    currentBodyState := state
    previousBodyState := unitState
    isMotionEnabled := true
    isCollisionEnabled := true
    interpolationFactor := 0
    obb := () }

/-- The rigid body `body` with the immovable current state `immovableState`. -/
def immovableBody : RigidBody K Unit Unit :=
  { (body : RigidBody K Unit Unit) with currentBodyState := immovableState }

/-- The state of the falling-body scenario at position `(1, 2, 3)`: inverse mass `1/2`,
identity inverse inertia tensor, identity orientation `(0, 0, 0, 1)`, zero momenta; the
secondary values are those of a body at rest. -/
def scenarioState : BodyState K :=
  { position := ⟨1, 2, 3⟩
    linearMomentum := ⟨0, 0, 0⟩
    orientation := ⟨0, 0, 0, 1⟩
    angularMomentum := ⟨0, 0, 0⟩
    linearVelocity := ⟨0, 0, 0⟩
    angularVelocity := ⟨0, 0, 0⟩
    spin := ⟨0, 0, 0, 0⟩
    inertiaTensorInverse := Matrix3x3.identity
    massInverse := ⟨1 / 2⟩
    externalForce := ⟨0, 0, 0⟩
    externalTorque := ⟨0, 0, 0⟩ }

/-- A square root on the rationals, exact on the quotients of two perfect squares: the
integer square roots of the numerator and of the denominator. -/
def ratSqrt (x : ℚ) : ℚ :=
  (Nat.sqrt x.num.toNat : ℚ) / (Nat.sqrt x.den : ℚ)

end Example

/-! ## Example inputs, over `double` -/

namespace Example

/-- A state over `double` with the orientation `(1, 2, 3, 4)`, of length `sqrt 30`. -/
def doubleState : BodyState Double :=
  { position := ⟨1, 2, 3⟩
    linearMomentum := ⟨4, 0, 2⟩
    orientation := ⟨1, 2, 3, 4⟩
    angularMomentum := ⟨2, 4, 6⟩
    linearVelocity := ⟨0, 0, 0⟩
    angularVelocity := ⟨0, 0, 0⟩
    spin := ⟨0, 0, 0, 0⟩
    inertiaTensorInverse := ⟨1, 0, 0, 0, 2, 0, 0, 0, 3⟩
    massInverse := ⟨1 / 2⟩
    externalForce := ⟨0, 1, 0⟩
    externalTorque := ⟨1, 2, 3⟩ }

/-- A rigid body over `double` whose current state is at rest with inverse mass 49 and the
identity orientation. -/
def doubleBody : RigidBody Double Unit Unit :=
  { toBody := ()
    inertiaTensor := ⟨1, 0, 0, 0, 1, 0, 0, 0, 1⟩
    currentBodyState :=
      { position := ⟨0, 0, 0⟩
        linearMomentum := ⟨0, 0, 0⟩
        orientation := ⟨0, 0, 0, 1⟩
        angularMomentum := ⟨0, 0, 0⟩
        linearVelocity := ⟨0, 0, 0⟩
        angularVelocity := ⟨0, 0, 0⟩
        spin := ⟨0, 0, 0, 0⟩
        inertiaTensorInverse := ⟨1, 0, 0, 0, 1, 0, 0, 0, 1⟩
        massInverse := ⟨49⟩
        externalForce := ⟨0, 0, 0⟩
        externalTorque := ⟨0, 0, 0⟩ }
    previousBodyState :=
      { position := ⟨0, 0, 0⟩
        linearMomentum := ⟨0, 0, 0⟩
        orientation := ⟨0, 0, 0, 1⟩
        angularMomentum := ⟨0, 0, 0⟩
        linearVelocity := ⟨0, 0, 0⟩
        angularVelocity := ⟨0, 0, 0⟩
        spin := ⟨0, 0, 0, 0⟩
        inertiaTensorInverse := ⟨1, 0, 0, 0, 1, 0, 0, 0, 1⟩
        massInverse := ⟨49⟩
        externalForce := ⟨0, 0, 0⟩
        externalTorque := ⟨0, 0, 0⟩ }
    isMotionEnabled := true
    isCollisionEnabled := true
    interpolationFactor := 0
    obb := () }

/-- The rigid body `doubleBody` with inverse mass 0 in its current state (an immovable
body). -/
def doubleImmovableBody : RigidBody Double Unit Unit :=
  { doubleBody with
    currentBodyState := { doubleBody.currentBodyState with massInverse := ⟨0⟩ } }

end Example

/-! ## Lemmas on the mathematics library -/

section Lemmas

variable {K : Type}

theorem vec_zero_def [Zero K] : (0 : Vector3D K) = ⟨0, 0, 0⟩ := rfl

theorem vec_add_def [Add K] (a b : Vector3D K) :
    a + b = ⟨a.x + b.x, a.y + b.y, a.z + b.z⟩ := rfl

theorem vec_hmul_def [Mul K] (a : Vector3D K) (c : K) :
    a * c = ⟨a.x * c, a.y * c, a.z * c⟩ := rfl

theorem mat_hmul_def [Add K] [Mul K] (m : Matrix3x3 K) (v : Vector3D K) :
    m * v = ⟨m.m00 * v.x + m.m01 * v.y + m.m02 * v.z,
             m.m10 * v.x + m.m11 * v.y + m.m12 * v.z,
             m.m20 * v.x + m.m21 * v.y + m.m22 * v.z⟩ := rfl

theorem quat_zero_def [Zero K] : (0 : Quaternion K) = ⟨0, 0, 0, 0⟩ := rfl

theorem quat_add_def [Add K] (a b : Quaternion K) :
    a + b = ⟨a.x + b.x, a.y + b.y, a.z + b.z, a.w + b.w⟩ := rfl

theorem quat_hmul_def [Mul K] (a : Quaternion K) (c : K) :
    a * c = ⟨a.x * c, a.y * c, a.z * c, a.w * c⟩ := rfl

theorem quat_mul_def [Add K] [Sub K] [Mul K] (a b : Quaternion K) :
    a * b = ⟨a.w * b.x + b.w * a.x + (a.y * b.z - a.z * b.y),
             a.w * b.y + b.w * a.y + (a.z * b.x - a.x * b.z),
             a.w * b.z + b.w * a.z + (a.x * b.y - a.y * b.x),
             a.w * b.w - (a.x * b.x + a.y * b.y + a.z * b.z)⟩ := rfl

theorem quat_length_eq [Add K] [Mul K] (sqrt : K → K) (q : Quaternion K) :
    q.length sqrt = sqrt q.normSq := rfl

theorem vec_add_hmul_zero [Field K] (a b : Vector3D K) : a + b * (0 : K) = a := by
  ext <;> simp [vec_add_def, vec_hmul_def]

theorem quat_add_hmul_zero [Field K] (a b : Quaternion K) : a + b * (0 : K) = a := by
  ext <;> simp [quat_add_def, quat_hmul_def]

variable [LinearOrderedField K]

/-- The real square root is exact at every non-negative real. -/
theorem sqrtExactAt_real {x : ℝ} (hx : 0 ≤ x) : SqrtExactAt Real.sqrt x :=
  ⟨Real.sqrt_nonneg x, Real.mul_self_sqrt hx⟩

/-- A square root that is exact at 1 returns 1 there. -/
theorem SqrtExactAt.one_eq {sqrt : K → K} (h : SqrtExactAt sqrt 1) : sqrt 1 = 1 := by
  obtain ⟨h0, h1⟩ := h
  have h2 : (sqrt 1 - 1) * (sqrt 1 + 1) = 0 := by ring_nf; rw [pow_two, h1]; ring
  rcases mul_eq_zero.mp h2 with h3 | h3
  · linarith
  · linarith

theorem Quaternion.normSq_nonneg (q : Quaternion K) : 0 ≤ q.normSq := by
  unfold Quaternion.normSq
  nlinarith [mul_self_nonneg q.x, mul_self_nonneg q.y, mul_self_nonneg q.z, mul_self_nonneg q.w]

/-- A quaternion other than zero has a positive sum of squares. -/
theorem Quaternion.normSq_pos {q : Quaternion K} (hq : q ≠ 0) : 0 < q.normSq := by
  rcases lt_or_eq_of_le (Quaternion.normSq_nonneg q) with h | h
  · exact h
  · exfalso
    apply hq
    unfold Quaternion.normSq at h
    have hx := mul_self_nonneg q.x
    have hy := mul_self_nonneg q.y
    have hz := mul_self_nonneg q.z
    have hw := mul_self_nonneg q.w
    ext
    · exact mul_self_eq_zero.mp (by linarith)
    · exact mul_self_eq_zero.mp (by linarith)
    · exact mul_self_eq_zero.mp (by linarith)
    · exact mul_self_eq_zero.mp (by linarith)

/-- The length of a quaternion other than zero is positive, when the square root is exact
at its sum of squares. -/
theorem Quaternion.length_pos {sqrt : K → K} {q : Quaternion K} (hq : q ≠ 0)
    (hs : SqrtExactAt sqrt q.normSq) : 0 < q.length sqrt := by
  rw [quat_length_eq]
  obtain ⟨h0, h1⟩ := hs
  rcases lt_or_eq_of_le h0 with h | h
  · exact h
  · exfalso
    have := Quaternion.normSq_pos hq
    rw [← h1, ← h] at this
    simp at this

/-- The unit quaternion of a quaternion other than zero has sum of squares 1. -/
theorem Quaternion.normSq_getUnit {sqrt : K → K} {q : Quaternion K} (hq : q ≠ 0)
    (hs : SqrtExactAt sqrt q.normSq) : (q.getUnit sqrt).normSq = 1 := by
  have hpos := Quaternion.length_pos hq hs
  have hne : q.length sqrt ≠ 0 := ne_of_gt hpos
  have hsq : q.length sqrt * q.length sqrt = q.normSq := hs.2
  simp only [Quaternion.getUnit, Quaternion.normSq] at *
  field_simp
  linarith

/-- The unit quaternion has length 1. -/
theorem Quaternion.length_getUnit {sqrt : K → K} {q : Quaternion K} (hq : q ≠ 0)
    (hs : SqrtExactAt sqrt q.normSq) (h1 : SqrtExactAt sqrt 1) :
    (q.getUnit sqrt).length sqrt = 1 := by
  rw [quat_length_eq, Quaternion.normSq_getUnit hq hs, h1.one_eq]

/-- Normalising a quaternion of length 1 returns it. -/
theorem Quaternion.getUnit_of_length_eq_one {sqrt : K → K} {q : Quaternion K}
    (h : q.length sqrt = 1) : q.getUnit sqrt = q := by
  ext <;> simp [Quaternion.getUnit, h]

/-- Normalising twice is normalising once. -/
theorem Quaternion.getUnit_getUnit {sqrt : K → K} {q : Quaternion K} (hq : q ≠ 0)
    (hs : SqrtExactAt sqrt q.normSq) (h1 : SqrtExactAt sqrt 1) :
    (q.getUnit sqrt).getUnit sqrt = q.getUnit sqrt :=
  Quaternion.getUnit_of_length_eq_one (Quaternion.length_getUnit hq hs h1)

end Lemmas

/-! ## `BodyState::recalculate` and `BodyState::computeAtTime` -/

section BodyStateTheorems

variable {K : Type} [LinearOrderedField K]

/-- C1: for a state whose orientation is not the zero quaternion (and a square root that is
exact at the orientation's sum of squares), the orientation's length `n` is positive and
after `recalculate` the linear velocity is `linearMomentum * massInverse`, the angular
velocity is `inertiaTensorInverse * angularMomentum`, the orientation is the input
orientation with every component divided by `n`, and the spin is
`(Quaternion(ω.x, ω.y, ω.z, 0) * 0.5) * (that normalised orientation)` where `ω` is that new
angular velocity. -/
theorem recalculate_secondary_values (sqrt : K → K) (s : BodyState K)
    (hq : s.orientation ≠ 0) (hsqrt : SqrtExactAt sqrt s.orientation.normSq) :
    0 < s.orientation.length sqrt ∧
    s.orientation.length sqrt * s.orientation.length sqrt = s.orientation.normSq ∧
    (s.recalculate sqrt).linearVelocity = s.linearMomentum * s.massInverse.value ∧
    (s.recalculate sqrt).angularVelocity = s.inertiaTensorInverse * s.angularMomentum ∧
    (s.recalculate sqrt).orientation =
      ⟨s.orientation.x / s.orientation.length sqrt, s.orientation.y / s.orientation.length sqrt,
       s.orientation.z / s.orientation.length sqrt, s.orientation.w / s.orientation.length sqrt⟩ ∧
    (s.recalculate sqrt).spin =
      (Quaternion.mk (s.inertiaTensorInverse * s.angularMomentum).x
          (s.inertiaTensorInverse * s.angularMomentum).y
          (s.inertiaTensorInverse * s.angularMomentum).z 0 * (1 / 2 : K)) *
        (⟨s.orientation.x / s.orientation.length sqrt, s.orientation.y / s.orientation.length sqrt,
          s.orientation.z / s.orientation.length sqrt,
          s.orientation.w / s.orientation.length sqrt⟩ : Quaternion K) := by
  refine ⟨Quaternion.length_pos hq hsqrt, hsqrt.2, rfl, rfl, rfl, ?_⟩
  simp only [BodyState.recalculate, Quaternion.getUnit, Vector3D.getX, Vector3D.getY,
    Vector3D.getZ, quat_mul_def, quat_hmul_def, Quaternion.mk.injEq]
  refine ⟨?_, ?_, ?_, ?_⟩ <;> ring

/-- C1 at `Example.state` over the reals: the orientation `(0, 0, 0, 2)` has length 2 and
becomes `(0, 0, 0, 1)`, the linear velocity becomes `(4, 0, 2) * 1/2`, the angular velocity
`diag(1, 2, 3) * (2, 4, 6)` and the spin `(1, 4, 9, 0)`. -/
theorem recalculate_secondary_values_witness :
    (Example.state : BodyState ℝ).orientation ≠ 0 ∧
    SqrtExactAt Real.sqrt (Example.state : BodyState ℝ).orientation.normSq ∧
    (0 : ℝ) < (⟨0, 0, 0, 2⟩ : Quaternion ℝ).length Real.sqrt ∧
    ((Example.state : BodyState ℝ).recalculate Real.sqrt).linearVelocity = ⟨2, 0, 1⟩ ∧
    ((Example.state : BodyState ℝ).recalculate Real.sqrt).angularVelocity = ⟨2, 8, 18⟩ ∧
    ((Example.state : BodyState ℝ).recalculate Real.sqrt).orientation = ⟨0, 0, 0, 1⟩ ∧
    ((Example.state : BodyState ℝ).recalculate Real.sqrt).spin = ⟨1, 4, 9, 0⟩ := by
  have hq : (Example.state : BodyState ℝ).orientation ≠ 0 := by
    simp [Example.state, quat_zero_def]
  have hs : SqrtExactAt Real.sqrt (Example.state : BodyState ℝ).orientation.normSq :=
    sqrtExactAt_real (Quaternion.normSq_nonneg _)
  have hl : (⟨0, 0, 0, 2⟩ : Quaternion ℝ).length Real.sqrt = 2 := by
    have h4 : (0 * 0 + 0 * 0 + 0 * 0 + 2 * 2 : ℝ) = 2 * 2 := by norm_num
    rw [Quaternion.length, h4]
    exact Real.sqrt_mul_self (by norm_num)
  obtain ⟨h0, -, h1, h2, h3, h4⟩ :=
    recalculate_secondary_values Real.sqrt (Example.state : BodyState ℝ) hq hs
  refine ⟨hq, hs, h0, ?_, ?_, ?_, ?_⟩
  · rw [h1]; ext <;> norm_num [Example.state, vec_hmul_def]
  · rw [h2]; ext <;> norm_num [Example.state, mat_hmul_def]
  · rw [h3]
    simp only [Example.state, hl]
    ext <;> norm_num
  · rw [h4]
    simp only [Example.state, hl]
    ext <;> norm_num [mat_hmul_def, quat_hmul_def, quat_mul_def]

/-- C2: when the square root is exact at 1, (a) for every state whose orientation is not
the zero quaternion, the orientation has length exactly 1 after `recalculate`, and (b) for
every state, timestep and derivative such that `orientation + spin * dt` is not the zero
quaternion, the orientation has length exactly 1 after `computeAtTime`; in both cases the
square root is taken exact at the sum of squares of the quaternion that is normalised. -/
theorem orientation_unit_norm (sqrt : K → K) (hone : SqrtExactAt sqrt 1) :
    (∀ s : BodyState K, s.orientation ≠ 0 → SqrtExactAt sqrt s.orientation.normSq →
      (s.recalculate sqrt).orientation.length sqrt = 1) ∧
    (∀ (s : BodyState K) (timeStep : Time K) (d : DerivativeBodyState K),
      s.orientation + d.spin * timeStep.value ≠ 0 →
      SqrtExactAt sqrt (s.orientation + d.spin * timeStep.value).normSq →
      (s.computeAtTime sqrt timeStep d).orientation.length sqrt = 1) := by
  constructor
  · intro s hq hs
    exact Quaternion.length_getUnit hq hs hone
  · intro s timeStep d hq hs
    exact Quaternion.length_getUnit hq hs hone

/-- C2 at `Example.state` over the reals: the orientation `(0, 0, 0, 2)` and the sum
`(0, 0, 0, 2) + (0, 0, 0, 2) * 1 = (0, 0, 0, 4)` are not of length 1, and the orientation has
length 1 after `recalculate` and after `computeAtTime`. -/
theorem orientation_unit_norm_witness :
    (Example.state : BodyState ℝ).orientation ≠ 0 ∧
    (Example.state : BodyState ℝ).orientation +
      (Example.derivative : DerivativeBodyState ℝ).spin * (Example.timeStep : Time ℝ).value =
        ⟨0, 0, 0, 4⟩ ∧
    ((Example.state : BodyState ℝ).recalculate Real.sqrt).orientation.length Real.sqrt = 1 ∧
    ((Example.state : BodyState ℝ).computeAtTime Real.sqrt Example.timeStep
      Example.derivative).orientation.length Real.sqrt = 1 := by
  have hq : (Example.state : BodyState ℝ).orientation ≠ 0 := by
    simp [Example.state, quat_zero_def]
  have hsum : (Example.state : BodyState ℝ).orientation +
      (Example.derivative : DerivativeBodyState ℝ).spin * (Example.timeStep : Time ℝ).value =
        ⟨0, 0, 0, 4⟩ := by
    ext <;> norm_num [Example.state, Example.derivative, Example.timeStep, quat_add_def,
      quat_hmul_def]
  have hq2 : (Example.state : BodyState ℝ).orientation +
      (Example.derivative : DerivativeBodyState ℝ).spin * (Example.timeStep : Time ℝ).value ≠
        0 := by
    rw [hsum]; simp [quat_zero_def]
  have h := orientation_unit_norm Real.sqrt (sqrtExactAt_real zero_le_one)
  exact ⟨hq, hsum, h.1 _ hq (sqrtExactAt_real (Quaternion.normSq_nonneg _)),
    h.2 _ _ _ hq2 (sqrtExactAt_real (Quaternion.normSq_nonneg _))⟩

/-- C3: `computeAtTime(dt, d)` is `recalculate` applied to the state whose position is
`position + d.linearVelocity * dt`, linear momentum `linearMomentum + d.force * dt`,
orientation the component-wise sum `orientation + d.spin * dt` and angular momentum
`angularMomentum + d.torque * dt`; and the result is the same whatever the state's own
linear velocity, angular velocity and spin were. -/
theorem computeAtTime_eq_recalculate (sqrt : K → K) (s : BodyState K) (timeStep : Time K)
    (d : DerivativeBodyState K) :
    s.computeAtTime sqrt timeStep d =
      BodyState.recalculate sqrt
        { s with
          position := s.position + d.linearVelocity * timeStep.value
          linearMomentum := s.linearMomentum + d.force * timeStep.value
          orientation :=
            ⟨s.orientation.x + d.spin.x * timeStep.value, s.orientation.y + d.spin.y * timeStep.value,
             s.orientation.z + d.spin.z * timeStep.value, s.orientation.w + d.spin.w * timeStep.value⟩
          angularMomentum := s.angularMomentum + d.torque * timeStep.value } ∧
    ∀ (lv av : Vector3D K) (sp : Quaternion K),
      BodyState.computeAtTime sqrt timeStep d
          { s with linearVelocity := lv, angularVelocity := av, spin := sp } =
        s.computeAtTime sqrt timeStep d := by
  constructor
  · rfl
  · intro lv av sp
    rfl

/-- C6: at `Example.state` over the rationals, whose external torque is `(1, 2, 3)`, the
copy-constructor returns a state whose external torque is the default vector `(0, 0, 0)`:
the external torque is not that of the copied state, and `computeTorque` differs between
the two, while `computeForce` and the ten members of the initializer list agree. -/
theorem copyConstruct_externalTorque_not_copied :
    (Example.state : BodyState ℚ).externalTorque = ⟨1, 2, 3⟩ ∧
    (BodyState.copyConstruct (Example.state : BodyState ℚ)).externalTorque = ⟨0, 0, 0⟩ ∧
    (BodyState.copyConstruct (Example.state : BodyState ℚ)).externalTorque ≠
      (Example.state : BodyState ℚ).externalTorque ∧
    (BodyState.copyConstruct (Example.state : BodyState ℚ)).computeTorque ⟨0⟩ ≠
      (Example.state : BodyState ℚ).computeTorque ⟨0⟩ ∧
    (BodyState.copyConstruct (Example.state : BodyState ℚ)).computeForce ⟨0⟩ =
      (Example.state : BodyState ℚ).computeForce ⟨0⟩ ∧
    { BodyState.copyConstruct (Example.state : BodyState ℚ) with
        externalTorque := (Example.state : BodyState ℚ).externalTorque } =
      (Example.state : BodyState ℚ) := by
  refine ⟨rfl, rfl, ?_, ?_, rfl, rfl⟩
  · simp [BodyState.copyConstruct, Example.state, vec_zero_def]
  · simp [BodyState.computeTorque, BodyState.copyConstruct, Example.state, vec_zero_def]

end BodyStateTheorems

/-! ## `RigidBody::setLinearVelocity` -/

section RigidBodyTheorems

variable {K Body OBB : Type} [LinearOrderedField K]

/-- C10, the claim fails: at `Example.immovableBody` over the rationals, whose current state
has inverse mass 0 and linear velocity `(0, 0, 0)`, `setLinearVelocity((1, 0, 0))` returns a
body whose current state has linear velocity `(1, 0, 0)`: the call is not a no-op. -/
theorem setLinearVelocity_immovable_counterexample :
    (Example.immovableBody : RigidBody ℚ Unit Unit).currentBodyState.massInverse.value = 0 ∧
    (Example.immovableBody : RigidBody ℚ Unit Unit).currentBodyState.linearVelocity =
      ⟨0, 0, 0⟩ ∧
    ((Example.immovableBody : RigidBody ℚ Unit Unit).setLinearVelocity
      ⟨1, 0, 0⟩).currentBodyState.linearVelocity = ⟨1, 0, 0⟩ ∧
    ((Example.immovableBody : RigidBody ℚ Unit Unit).setLinearVelocity
      ⟨1, 0, 0⟩).currentBodyState.linearVelocity ≠
      (Example.immovableBody : RigidBody ℚ Unit Unit).currentBodyState.linearVelocity := by
  refine ⟨rfl, rfl, rfl, ?_⟩
  simp [RigidBody.setLinearVelocity, BodyState.setLinearMomentum, BodyState.setLinearVelocity,
    Example.immovableBody, Example.immovableState, vec_zero_def]

/-- C10, amended: for every rigid body whose current state has inverse mass 0 and every
vector `v`, `setLinearVelocity(v)` returns a body (it has no error outcome) whose current
state has linear velocity `v` and linear momentum the source's expression
`v * (1.0 / inverseMass)`, with the division by the inverse mass in it (what a floating-point
division by zero returns is not part of this embedding), and differs from the old current
state in the linear velocity and the linear momentum only; the previous state and the other
members of the body are the old ones. -/
theorem setLinearVelocity_immovable (rb : RigidBody K Body OBB) (v : Vector3D K)
    (hm : rb.currentBodyState.massInverse.value = 0) :
    (rb.setLinearVelocity v).currentBodyState.linearVelocity = v ∧
    (rb.setLinearVelocity v).currentBodyState.linearMomentum =
      v * (1 / rb.currentBodyState.massInverse.value) ∧
    (rb.setLinearVelocity v).currentBodyState.massInverse.value = 0 ∧
    { (rb.setLinearVelocity v).currentBodyState with
        linearVelocity := rb.currentBodyState.linearVelocity
        linearMomentum := rb.currentBodyState.linearMomentum } = rb.currentBodyState ∧
    (rb.setLinearVelocity v).previousBodyState = rb.previousBodyState ∧
    rb.setLinearVelocity v =
      { rb with currentBodyState := (rb.setLinearVelocity v).currentBodyState } :=
  ⟨rfl, rfl, hm, rfl, rfl, rfl⟩

/-- C10, amended, at `Example.immovableBody` over the rationals and `v = (1, 0, 0)`. -/
theorem setLinearVelocity_immovable_witness :
    (Example.immovableBody : RigidBody ℚ Unit Unit).currentBodyState.massInverse.value = 0 ∧
    ((Example.immovableBody : RigidBody ℚ Unit Unit).setLinearVelocity
      ⟨1, 0, 0⟩).currentBodyState.linearVelocity = ⟨1, 0, 0⟩ ∧
    ((Example.immovableBody : RigidBody ℚ Unit Unit).setLinearVelocity
      ⟨1, 0, 0⟩).previousBodyState = Example.unitState :=
  ⟨rfl,
    (setLinearVelocity_immovable (Example.immovableBody : RigidBody ℚ Unit Unit) ⟨1, 0, 0⟩ rfl).1,
    (setLinearVelocity_immovable (Example.immovableBody : RigidBody ℚ Unit Unit) ⟨1, 0, 0⟩
      rfl).2.2.2.2.1⟩

end RigidBodyTheorems

/-! ## Interpolation factor, snapshot, force and torque -/

section SnapshotTheorems

variable {K Body OBB : Type}

/-- C11, the claim fails: at `Example.body` over the rationals and the factor `3/2`, the
assertion of `setInterpolationFactor` fails and the program is aborted: no body, changed
or unchanged, comes back to the caller with an error. -/
theorem setInterpolationFactor_out_of_range_counterexample :
    RigidBody.setInterpolationFactor (Example.body : RigidBody ℚ Unit Unit) (3 / 2) = none ∧
    ¬ ∃ rb : RigidBody ℚ Unit Unit,
      RigidBody.setInterpolationFactor (Example.body : RigidBody ℚ Unit Unit) (3 / 2) =
        some rb := by
  have h : RigidBody.setInterpolationFactor (Example.body : RigidBody ℚ Unit Unit) (3 / 2) =
      none := by
    unfold RigidBody.setInterpolationFactor
    rw [if_neg]
    norm_num
  refine ⟨h, ?_⟩
  rintro ⟨rb, hrb⟩
  rw [h] at hrb
  exact Option.noConfusion hrb

/-- C11, amended: `setInterpolationFactor(f)` returns, with exactly `f` stored as the
interpolation factor and every other member of the body unchanged, when `0 <= f <= 1`; for
every other `f` the assertion fails (the program is aborted, nothing is stored); so the
call returns if and only if `0 <= f <= 1`, and a body it returns never holds a factor other
than `f` (no clamping). -/
theorem setInterpolationFactor_iff [LinearOrderedField K] (rb : RigidBody K Body OBB) (f : K) :
    (0 ≤ f ∧ f ≤ 1 →
      rb.setInterpolationFactor f = some { rb with interpolationFactor := f }) ∧
    (¬ (0 ≤ f ∧ f ≤ 1) → rb.setInterpolationFactor f = none) ∧
    ((rb.setInterpolationFactor f).isSome = true ↔ 0 ≤ f ∧ f ≤ 1) ∧
    (∀ rb2 : RigidBody K Body OBB, rb.setInterpolationFactor f = some rb2 →
      rb2.interpolationFactor = f ∧ rb2 = { rb with interpolationFactor := f }) := by
  by_cases h : 0 ≤ f ∧ f ≤ 1
  · have hs : rb.setInterpolationFactor f = some { rb with interpolationFactor := f } := by
      unfold RigidBody.setInterpolationFactor
      rw [if_pos (show f ≥ 0 ∧ f ≤ 1 from h)]
    refine ⟨fun _ => hs, fun hn => absurd h hn, ?_, ?_⟩
    · rw [hs]
      simp [h]
    · intro rb2 h2
      rw [hs] at h2
      have h3 := Option.some.inj h2
      rw [← h3]
      exact ⟨rfl, rfl⟩
  · have hs : rb.setInterpolationFactor f = none := by
      unfold RigidBody.setInterpolationFactor
      rw [if_neg (show ¬ (f ≥ 0 ∧ f ≤ 1) from h)]
    refine ⟨fun hp => absurd hp h, fun _ => hs, ?_, ?_⟩
    · rw [hs]
      simp [h]
    · intro rb2 h2
      rw [hs] at h2
      exact Option.noConfusion h2

/-- C11, amended, at `Example.body` over the rationals: the factor `1/2` is stored and the
factor `3/2` makes the assertion fail. -/
theorem setInterpolationFactor_iff_witness :
    RigidBody.setInterpolationFactor (Example.body : RigidBody ℚ Unit Unit) (1 / 2) =
      some { (Example.body : RigidBody ℚ Unit Unit) with interpolationFactor := 1 / 2 } ∧
    RigidBody.setInterpolationFactor (Example.body : RigidBody ℚ Unit Unit) (3 / 2) = none :=
  ⟨(setInterpolationFactor_iff (Example.body : RigidBody ℚ Unit Unit) (1 / 2)).1
      (by norm_num),
    (setInterpolationFactor_iff (Example.body : RigidBody ℚ Unit Unit) (3 / 2)).2.1
      (by norm_num)⟩

/-- C12: after `updatePreviousBodyState` the previous state is the current state, in every
member (external force and external torque too); the current state, the inertia tensor,
the two flags, the interpolation factor, the bounding box and the base-class part are
unchanged; and a second call changes nothing more. -/
theorem updatePreviousBodyState_snapshot (rb : RigidBody K Body OBB) :
    rb.updatePreviousBodyState.previousBodyState = rb.currentBodyState ∧
    rb.updatePreviousBodyState.previousBodyState.externalForce =
      rb.currentBodyState.externalForce ∧
    rb.updatePreviousBodyState.previousBodyState.externalTorque =
      rb.currentBodyState.externalTorque ∧
    rb.updatePreviousBodyState.currentBodyState = rb.currentBodyState ∧
    rb.updatePreviousBodyState.inertiaTensor = rb.inertiaTensor ∧
    rb.updatePreviousBodyState.isMotionEnabled = rb.isMotionEnabled ∧
    rb.updatePreviousBodyState.isCollisionEnabled = rb.isCollisionEnabled ∧
    rb.updatePreviousBodyState.interpolationFactor = rb.interpolationFactor ∧
    rb.updatePreviousBodyState.obb = rb.obb ∧
    rb.updatePreviousBodyState.toBody = rb.toBody ∧
    rb.updatePreviousBodyState.updatePreviousBodyState = rb.updatePreviousBodyState :=
  ⟨rfl, rfl, rfl, rfl, rfl, rfl, rfl, rfl, rfl, rfl, rfl⟩

/-- C13: for every state and all times `t`, `t2`, `computeForce(t)` is the state's external
force and `computeTorque(t)` its external torque, and both are the same at `t` and at
`t2`; the two functions are total and return the vector only (the methods are `const`). -/
theorem computeForce_computeTorque_time_invariant (s : BodyState K) (t t2 : Time K) :
    s.computeForce t = s.externalForce ∧
    s.computeTorque t = s.externalTorque ∧
    s.computeForce t = s.computeForce t2 ∧
    s.computeTorque t = s.computeTorque t2 :=
  ⟨rfl, rfl, rfl, rfl⟩

end SnapshotTheorems

/-! ## Scenario, consistency of `setLinearVelocity`, spin, and what is left unchanged -/

section FrameTheorems

variable {K : Type} [LinearOrderedField K]

/-- Two exact square roots, of `x` and of `4 * x`: the first is half the second. -/
theorem SqrtExactAt.half {sqrt : K → K} {x y : K} (hx : SqrtExactAt sqrt x)
    (hy : SqrtExactAt sqrt y) (hxy : y = 4 * x) : sqrt x = 1 / 2 * sqrt y := by
  obtain ⟨hx0, hx1⟩ := hx
  obtain ⟨hy0, hy1⟩ := hy
  have h : (2 * sqrt x - sqrt y) * (2 * sqrt x + sqrt y) = 0 := by
    have : (2 * sqrt x - sqrt y) * (2 * sqrt x + sqrt y) =
        4 * (sqrt x * sqrt x) - sqrt y * sqrt y := by ring
    rw [this, hx1, hy1, hxy]
    ring
  rcases mul_eq_zero.mp h with h1 | h1
  · linarith
  · have h2 : sqrt x = 0 := by linarith
    have h3 : sqrt y = 0 := by linarith
    rw [h2, h3]
    ring

/-- The rational square root `Example.ratSqrt` is exact at 1. -/
theorem ratSqrt_exact_one : SqrtExactAt Example.ratSqrt 1 := by
  have h : Example.ratSqrt 1 = 1 := by simp [Example.ratSqrt]
  unfold SqrtExactAt
  rw [h]
  norm_num

/-- C14: in any ordered field (the rationals among them) and for a square root exact at 1,
from a state with inverse mass `1/2`, identity inverse inertia tensor, identity orientation
`(0, 0, 0, 1)` and zero linear and angular momentum, at any position, one `computeAtTime`
with `dt = 1/10` and the derivative `{linearVelocity = 0, force = (0, -98/5, 0), spin = 0,
torque = 0}` gives linear momentum `(0, -49/25, 0)`, linear velocity `(0, -49/50, 0)`, the
same position, angular momentum 0, angular velocity 0, spin 0 and the same orientation. -/
theorem computeAtTime_gravity_scenario (sqrt : K → K) (hone : SqrtExactAt sqrt 1)
    (s : BodyState K) (hm : s.massInverse = ⟨1 / 2⟩)
    (hi : s.inertiaTensorInverse = Matrix3x3.identity) (ho : s.orientation = ⟨0, 0, 0, 1⟩)
    (hp : s.linearMomentum = ⟨0, 0, 0⟩) (ha : s.angularMomentum = ⟨0, 0, 0⟩) :
    (s.computeAtTime sqrt ⟨1 / 10⟩
      ⟨⟨0, 0, 0⟩, ⟨0, -98 / 5, 0⟩, ⟨0, 0, 0, 0⟩, ⟨0, 0, 0⟩⟩).linearMomentum =
        ⟨0, -49 / 25, 0⟩ ∧
    (s.computeAtTime sqrt ⟨1 / 10⟩
      ⟨⟨0, 0, 0⟩, ⟨0, -98 / 5, 0⟩, ⟨0, 0, 0, 0⟩, ⟨0, 0, 0⟩⟩).linearVelocity =
        ⟨0, -49 / 50, 0⟩ ∧
    (s.computeAtTime sqrt ⟨1 / 10⟩
      ⟨⟨0, 0, 0⟩, ⟨0, -98 / 5, 0⟩, ⟨0, 0, 0, 0⟩, ⟨0, 0, 0⟩⟩).position = s.position ∧
    (s.computeAtTime sqrt ⟨1 / 10⟩
      ⟨⟨0, 0, 0⟩, ⟨0, -98 / 5, 0⟩, ⟨0, 0, 0, 0⟩, ⟨0, 0, 0⟩⟩).angularMomentum = ⟨0, 0, 0⟩ ∧
    (s.computeAtTime sqrt ⟨1 / 10⟩
      ⟨⟨0, 0, 0⟩, ⟨0, -98 / 5, 0⟩, ⟨0, 0, 0, 0⟩, ⟨0, 0, 0⟩⟩).angularVelocity = ⟨0, 0, 0⟩ ∧
    (s.computeAtTime sqrt ⟨1 / 10⟩
      ⟨⟨0, 0, 0⟩, ⟨0, -98 / 5, 0⟩, ⟨0, 0, 0, 0⟩, ⟨0, 0, 0⟩⟩).spin = ⟨0, 0, 0, 0⟩ ∧
    (s.computeAtTime sqrt ⟨1 / 10⟩
      ⟨⟨0, 0, 0⟩, ⟨0, -98 / 5, 0⟩, ⟨0, 0, 0, 0⟩, ⟨0, 0, 0⟩⟩).orientation = s.orientation := by
  have hs1 : sqrt 1 = 1 := hone.one_eq
  simp only [BodyState.computeAtTime, BodyState.recalculate, Time.getValue, Kilogram.getValue,
    DerivativeBodyState.getLinearVelocity, DerivativeBodyState.getForce,
    DerivativeBodyState.getSpin, DerivativeBodyState.getTorque, Vector3D.getX, Vector3D.getY,
    Vector3D.getZ, Quaternion.getUnit, Quaternion.length, Matrix3x3.identity, hm, hi, ho, hp,
    ha, vec_add_def, vec_hmul_def, quat_add_def, quat_hmul_def, quat_mul_def, mat_hmul_def]
  norm_num [hs1]

/-- C14 at `Example.scenarioState` (position `(1, 2, 3)`) over the rationals, with the
rational square root `Example.ratSqrt`. -/
theorem computeAtTime_gravity_scenario_witness :
    (BodyState.computeAtTime Example.ratSqrt ⟨1 / 10⟩
      ⟨⟨0, 0, 0⟩, ⟨0, -98 / 5, 0⟩, ⟨0, 0, 0, 0⟩, ⟨0, 0, 0⟩⟩
      (Example.scenarioState : BodyState ℚ)).linearMomentum = ⟨0, -49 / 25, 0⟩ ∧
    (BodyState.computeAtTime Example.ratSqrt ⟨1 / 10⟩
      ⟨⟨0, 0, 0⟩, ⟨0, -98 / 5, 0⟩, ⟨0, 0, 0, 0⟩, ⟨0, 0, 0⟩⟩
      (Example.scenarioState : BodyState ℚ)).linearVelocity = ⟨0, -49 / 50, 0⟩ ∧
    (BodyState.computeAtTime Example.ratSqrt ⟨1 / 10⟩
      ⟨⟨0, 0, 0⟩, ⟨0, -98 / 5, 0⟩, ⟨0, 0, 0, 0⟩, ⟨0, 0, 0⟩⟩
      (Example.scenarioState : BodyState ℚ)).position = ⟨1, 2, 3⟩ :=
  ⟨(computeAtTime_gravity_scenario Example.ratSqrt ratSqrt_exact_one
      (Example.scenarioState : BodyState ℚ) rfl rfl rfl rfl rfl).1,
    (computeAtTime_gravity_scenario Example.ratSqrt ratSqrt_exact_one
      (Example.scenarioState : BodyState ℚ) rfl rfl rfl rfl rfl).2.1,
    (computeAtTime_gravity_scenario Example.ratSqrt ratSqrt_exact_one
      (Example.scenarioState : BodyState ℚ) rfl rfl rfl rfl rfl).2.2.1⟩

/-- C18: `recalculate` leaves the position, the linear momentum, the angular momentum, the
inverse mass, the inverse inertia tensor, the external force and the external torque as
they were, and leaves the orientation as it was whenever the orientation has length 1. -/
theorem recalculate_frame (sqrt : K → K) (s : BodyState K) :
    (s.recalculate sqrt).position = s.position ∧
    (s.recalculate sqrt).linearMomentum = s.linearMomentum ∧
    (s.recalculate sqrt).angularMomentum = s.angularMomentum ∧
    (s.recalculate sqrt).massInverse = s.massInverse ∧
    (s.recalculate sqrt).inertiaTensorInverse = s.inertiaTensorInverse ∧
    (s.recalculate sqrt).externalForce = s.externalForce ∧
    (s.recalculate sqrt).externalTorque = s.externalTorque ∧
    (s.orientation.length sqrt = 1 → (s.recalculate sqrt).orientation = s.orientation) :=
  ⟨rfl, rfl, rfl, rfl, rfl, rfl, rfl, fun h => Quaternion.getUnit_of_length_eq_one h⟩

/-- C18 at `Example.unitState` over the reals, whose orientation `(0, 0, 0, 1)` has length
1: `recalculate` leaves the orientation as it was. -/
theorem recalculate_frame_witness :
    (Example.unitState : BodyState ℝ).orientation.length Real.sqrt = 1 ∧
    ((Example.unitState : BodyState ℝ).recalculate Real.sqrt).orientation = ⟨0, 0, 0, 1⟩ := by
  have hl : (Example.unitState : BodyState ℝ).orientation.length Real.sqrt = 1 := by
    simp [Example.unitState, Quaternion.length]
  exact ⟨hl, (recalculate_frame Real.sqrt (Example.unitState : BodyState ℝ)).2.2.2.2.2.2.2 hl⟩

/-- C19: for every state, timestep and derivative, `computeAtTime` leaves the inverse mass,
the inverse inertia tensor, the external force and the external torque as they were, so
that `computeForce` and `computeTorque` return, at every time, the same vectors after the
step as before. -/
theorem computeAtTime_frame (sqrt : K → K) (s : BodyState K) (timeStep : Time K)
    (d : DerivativeBodyState K) (t : Time K) :
    (s.computeAtTime sqrt timeStep d).massInverse = s.massInverse ∧
    (s.computeAtTime sqrt timeStep d).inertiaTensorInverse = s.inertiaTensorInverse ∧
    (s.computeAtTime sqrt timeStep d).externalForce = s.externalForce ∧
    (s.computeAtTime sqrt timeStep d).externalTorque = s.externalTorque ∧
    (s.computeAtTime sqrt timeStep d).computeForce t = s.computeForce t ∧
    (s.computeAtTime sqrt timeStep d).computeTorque t = s.computeTorque t :=
  ⟨rfl, rfl, rfl, rfl, rfl, rfl⟩

end FrameTheorems

/-! ## Claims that depend on the rounding of `double` -/

section DoubleTheorems

set_option exponentiation.threshold 5000

set_option maxRecDepth 100000

/-- With timestep 0, `computeAtTime` is `recalculate`, in exact arithmetic. -/
theorem computeAtTime_zero_eq {K : Type} [Field K] (sqrt : K → K) (s : BodyState K)
    (d : DerivativeBodyState K) : s.computeAtTime sqrt ⟨0⟩ d = s.recalculate sqrt := by
  simp only [BodyState.computeAtTime, Time.getValue, vec_add_hmul_zero, quat_add_hmul_zero]

/-- Values of the arithmetic of `Double`: `1/3 = 0.3333333333333333`,
`1/10 + 2/10 = 0.30000000000000004`, `1/49 = 0.02040816326530612`,
`sqrt 2 = 1.4142135623730951`, `sqrt 30 = 5.477225575051661`, `1/0 = inf`, `-1/0 = -inf`,
`0/0 = NaN`, `inf * 0 = NaN`, `inf - inf = NaN`, `-4 * 0 = -0`, and `1/2 = 0.5` exactly. -/
theorem Double.arithmetic_values :
    (1 : Double) / 3 = .finite false 6004799503160661 1020 ∧
    (1 : Double) / 10 + 2 / 10 = .finite false 5404319552844596 1020 ∧
    (1 : Double) / 49 = .finite false 5882252574524729 1016 ∧
    Double.sqrt 2 = .finite false 6369051672525773 1022 ∧
    Double.sqrt 30 = .finite false 6166807764706703 1024 ∧
    (1 : Double) / 0 = .infinite false ∧
    (-1 : Double) / 0 = .infinite true ∧
    (0 : Double) / 0 = .nan ∧
    (1 : Double) / 0 * 0 = .nan ∧
    (1 : Double) / 0 - 1 / 0 = .nan ∧
    (-4 : Double) * 0 = .finite true 0 0 ∧
    (1 : Double) / 2 = .finite false 4503599627370496 1021 := by
  decide

/-- A finite double times a zero is a zero. -/
theorem Double.mul_zero_of_finite (x y : Double) (hx : x.isFinite = true)
    (hy : y.isZero = true) : (x * y).isZero = true := by
  cases x with
  | finite s m e =>
    cases y with
    | finite t n f =>
      have hn : n = 0 := by simpa [Double.isZero] using hy
      subst hn
      show (Double.mul (Double.finite s m e) (Double.finite t 0 f)).isZero = true
      simp [Double.mul, Double.roundNearestEven, Double.isZero]
    | infinite t => simp [Double.isZero] at hy
    | nan => simp [Double.isZero] at hy
  | infinite s => simp [Double.isFinite] at hx
  | nan => simp [Double.isFinite] at hx

/-- C5, the claim fails: over `double`, at `Example.doubleState`, whose orientation is
`(1, 2, 3, 4)`, the first `recalculate` stores the orientation
`(0.18257418583505536, 0.3651483716701107, 0.5477225575051661, 0.7302967433402214)`, whose
computed length is `0.9999999999999999`, and the second `recalculate` stores
`(0.18257418583505539, 0.36514837167011077, 0.5477225575051662, 0.7302967433402215)` and
another spin: the state after two calls is not the state after one. -/
theorem recalculate_twice_double_counterexample :
    Example.doubleState.orientation ≠ 0 ∧
    (Example.doubleState.recalculate Double.sqrt).orientation =
      ⟨.finite false 6577928282353816 1019, .finite false 6577928282353816 1020,
       .finite false 4933446211765362 1021, .finite false 6577928282353816 1021⟩ ∧
    (Example.doubleState.recalculate Double.sqrt).orientation.length Double.sqrt =
      .finite false 9007199254740991 1021 ∧
    ((Example.doubleState.recalculate Double.sqrt).recalculate Double.sqrt).orientation =
      ⟨.finite false 6577928282353817 1019, .finite false 6577928282353817 1020,
       .finite false 4933446211765363 1021, .finite false 6577928282353817 1021⟩ ∧
    ((Example.doubleState.recalculate Double.sqrt).recalculate Double.sqrt).spin ≠
      (Example.doubleState.recalculate Double.sqrt).spin ∧
    (Example.doubleState.recalculate Double.sqrt).recalculate Double.sqrt ≠
      Example.doubleState.recalculate Double.sqrt := by
  decide

/-- C5, amended: over `double`, `recalculate` applied twice returns the same state as
`recalculate` applied once in every member other than the orientation and the spin, and in
these two also whenever normalising the normalised orientation returns it unchanged; and
in exact arithmetic (an ordered field, with a square root exact at the orientation's sum
of squares and at 1) it returns the same state, in every member, for every orientation
other than the zero quaternion. -/
theorem recalculate_twice :
    (∀ s : BodyState Double,
      { (s.recalculate Double.sqrt).recalculate Double.sqrt with
          orientation := (s.recalculate Double.sqrt).orientation
          spin := (s.recalculate Double.sqrt).spin } = s.recalculate Double.sqrt ∧
      ((s.orientation.getUnit Double.sqrt).getUnit Double.sqrt =
          s.orientation.getUnit Double.sqrt →
        (s.recalculate Double.sqrt).recalculate Double.sqrt = s.recalculate Double.sqrt)) ∧
    (∀ (K : Type) [LinearOrderedField K] (sqrt : K → K) (s : BodyState K),
      s.orientation ≠ 0 → SqrtExactAt sqrt s.orientation.normSq → SqrtExactAt sqrt 1 →
        (s.recalculate sqrt).recalculate sqrt = s.recalculate sqrt) := by
  refine ⟨fun s => ⟨rfl, fun h => ?_⟩, fun K _ sqrt s hq hsqrt hone => ?_⟩
  · simp only [BodyState.recalculate, h]
  · have h := Quaternion.getUnit_getUnit hq hsqrt hone
    simp only [BodyState.recalculate, h]

/-- C5, amended, at two inputs: over `double`, the state `Example.doubleState` with the
orientation `(0, 0, 0, 2)`, which is normalised to `(0, 0, 0, 1)` and stays so; and over
the reals, `Example.state`. -/
theorem recalculate_twice_witness :
    ((⟨0, 0, 0, 2⟩ : Quaternion Double).getUnit Double.sqrt).getUnit Double.sqrt =
      (⟨0, 0, 0, 2⟩ : Quaternion Double).getUnit Double.sqrt ∧
    (BodyState.recalculate Double.sqrt
        { Example.doubleState with orientation := ⟨0, 0, 0, 2⟩ }).recalculate Double.sqrt =
      BodyState.recalculate Double.sqrt
        { Example.doubleState with orientation := ⟨0, 0, 0, 2⟩ } ∧
    (Example.state : BodyState ℝ).orientation ≠ 0 ∧
    ((Example.state : BodyState ℝ).recalculate Real.sqrt).recalculate Real.sqrt =
      (Example.state : BodyState ℝ).recalculate Real.sqrt := by
  have hd : ((⟨0, 0, 0, 2⟩ : Quaternion Double).getUnit Double.sqrt).getUnit Double.sqrt =
      (⟨0, 0, 0, 2⟩ : Quaternion Double).getUnit Double.sqrt := by decide
  have hq : (Example.state : BodyState ℝ).orientation ≠ 0 := by
    simp [Example.state, quat_zero_def]
  exact ⟨hd,
    (recalculate_twice.1 { Example.doubleState with orientation := ⟨0, 0, 0, 2⟩ }).2 hd, hq,
    recalculate_twice.2 ℝ Real.sqrt _ hq (sqrtExactAt_real (Quaternion.normSq_nonneg _))
      (sqrtExactAt_real zero_le_one)⟩

/-- C8, the claim fails: over `double`, the current state that `setLinearVelocity((1, 0, 0))`
leaves in the immovable body `Example.doubleImmovableBody` has inverse mass 0 and linear
momentum `(inf, NaN, NaN)`, and `recalculate` gives it the linear velocity
`(NaN, NaN, NaN)`, not the zero vector. -/
theorem massInverse_zero_double_counterexample :
    (Example.doubleImmovableBody.setLinearVelocity ⟨1, 0, 0⟩).currentBodyState.massInverse.value =
      .finite false 0 0 ∧
    (Example.doubleImmovableBody.setLinearVelocity ⟨1, 0, 0⟩).currentBodyState.linearMomentum =
      ⟨.infinite false, .nan, .nan⟩ ∧
    ((Example.doubleImmovableBody.setLinearVelocity ⟨1, 0, 0⟩).currentBodyState.recalculate
      Double.sqrt).linearVelocity = ⟨.nan, .nan, .nan⟩ ∧
    ((Example.doubleImmovableBody.setLinearVelocity ⟨1, 0, 0⟩).currentBodyState.recalculate
      Double.sqrt).linearVelocity ≠ ⟨0, 0, 0⟩ := by
  decide

/-- C8, amended: over `double`, (a) for every state whose inverse mass is a zero, the three
components of the linear velocity are zeros after `recalculate` when the three components
of the linear momentum are finite, and after `computeAtTime` when the three components of
the updated linear momentum `linearMomentum + force * dt` are finite; and (b) over any
number type, for every state and every other inverse mass, `recalculate` returns the same
angular velocity, orientation and spin on the state and on the state with that inverse
mass. -/
theorem massInverse_decoupling_finite :
    (∀ s : BodyState Double, s.massInverse.value.isZero = true →
      (s.linearMomentum.x.isFinite = true → s.linearMomentum.y.isFinite = true →
        s.linearMomentum.z.isFinite = true →
          (s.recalculate Double.sqrt).linearVelocity.x.isZero = true ∧
          (s.recalculate Double.sqrt).linearVelocity.y.isZero = true ∧
          (s.recalculate Double.sqrt).linearVelocity.z.isZero = true) ∧
      ∀ (timeStep : Time Double) (d : DerivativeBodyState Double),
        (s.linearMomentum + d.force * timeStep.value).x.isFinite = true →
        (s.linearMomentum + d.force * timeStep.value).y.isFinite = true →
        (s.linearMomentum + d.force * timeStep.value).z.isFinite = true →
          (s.computeAtTime Double.sqrt timeStep d).linearVelocity.x.isZero = true ∧
          (s.computeAtTime Double.sqrt timeStep d).linearVelocity.y.isZero = true ∧
          (s.computeAtTime Double.sqrt timeStep d).linearVelocity.z.isZero = true) ∧
    (∀ (K : Type) [Zero K] [One K] [Add K] [Sub K] [Mul K] [Div K] [OfNat K 2] (sqrt : K → K)
      (s : BodyState K) (m : Kilogram K),
      (BodyState.recalculate sqrt { s with massInverse := m }).angularVelocity =
        (s.recalculate sqrt).angularVelocity ∧
      (BodyState.recalculate sqrt { s with massInverse := m }).orientation =
        (s.recalculate sqrt).orientation ∧
      (BodyState.recalculate sqrt { s with massInverse := m }).spin =
        (s.recalculate sqrt).spin) := by
  refine ⟨fun s hm => ⟨fun hx hy hz => ?_, fun timeStep d hx hy hz => ?_⟩,
    fun K _ _ _ _ _ _ _ sqrt s m => ⟨rfl, rfl, rfl⟩⟩
  · exact ⟨Double.mul_zero_of_finite _ _ hx hm, Double.mul_zero_of_finite _ _ hy hm,
      Double.mul_zero_of_finite _ _ hz hm⟩
  · exact ⟨Double.mul_zero_of_finite _ _ hx hm, Double.mul_zero_of_finite _ _ hy hm,
      Double.mul_zero_of_finite _ _ hz hm⟩

/-- C8, amended, over `double` at the current state of `Example.doubleImmovableBody` with
the linear momentum `(4, 0, -2)`: the linear velocity is `(+0, +0, -0)` after `recalculate`,
and `(+0, +0, -0)` after a `computeAtTime` with the force `(0, 1, 0)` and timestep 1. -/
theorem massInverse_decoupling_finite_witness :
    (BodyState.recalculate Double.sqrt
      { Example.doubleImmovableBody.currentBodyState with
        linearMomentum := ⟨4, 0, -2⟩ }).linearVelocity =
      ⟨.finite false 0 0, .finite false 0 0, .finite true 0 0⟩ ∧
    (BodyState.recalculate Double.sqrt
      { Example.doubleImmovableBody.currentBodyState with
        linearMomentum := ⟨4, 0, -2⟩ }).linearVelocity.z.isZero = true ∧
    (BodyState.computeAtTime Double.sqrt ⟨1⟩ ⟨⟨0, 0, 0⟩, ⟨0, 1, 0⟩, ⟨0, 0, 0, 0⟩, ⟨0, 0, 0⟩⟩
      { Example.doubleImmovableBody.currentBodyState with
        linearMomentum := ⟨4, 0, -2⟩ }).linearVelocity.y.isZero = true :=
  ⟨by decide,
    ((massInverse_decoupling_finite.1
      { Example.doubleImmovableBody.currentBodyState with linearMomentum := ⟨4, 0, -2⟩ }
      (by decide)).1 (by decide) (by decide) (by decide)).2.2,
    ((massInverse_decoupling_finite.1
      { Example.doubleImmovableBody.currentBodyState with linearMomentum := ⟨4, 0, -2⟩ }
      (by decide)).2 ⟨1⟩ ⟨⟨0, 0, 0⟩, ⟨0, 1, 0⟩, ⟨0, 0, 0, 0⟩, ⟨0, 0, 0⟩⟩
      (by decide) (by decide) (by decide)).2.1⟩

/-- C16, the claim fails: over `double`, at `Example.doubleBody`, whose current state has
inverse mass 49, `setLinearVelocity((1, 0, 0))` stores the linear momentum
`(0.02040816326530612, 0, 0)`, and a `recalculate` of the current state then overwrites the
linear velocity `(1, 0, 0)` with `(0.9999999999999999, 0, 0)`. -/
theorem setLinearVelocity_recalculate_double_counterexample :
    Example.doubleBody.currentBodyState.massInverse.value = .finite false 6896136929411072 1027 ∧
    Example.doubleBody.currentBodyState.massInverse.value ≠ 0 ∧
    (Example.doubleBody.setLinearVelocity ⟨1, 0, 0⟩).currentBodyState.linearVelocity =
      ⟨1, 0, 0⟩ ∧
    (Example.doubleBody.setLinearVelocity ⟨1, 0, 0⟩).currentBodyState.linearMomentum =
      ⟨.finite false 5882252574524729 1016, .finite false 0 0, .finite false 0 0⟩ ∧
    ((Example.doubleBody.setLinearVelocity ⟨1, 0, 0⟩).currentBodyState.recalculate
      Double.sqrt).linearVelocity =
      ⟨.finite false 9007199254740991 1021, .finite false 0 0, .finite false 0 0⟩ ∧
    ((Example.doubleBody.setLinearVelocity ⟨1, 0, 0⟩).currentBodyState.recalculate
      Double.sqrt).linearVelocity ≠ ⟨1, 0, 0⟩ := by
  decide

/-- C16, amended: over `double`, after `setLinearVelocity(v)` the current state's linear
momentum is `v * (1.0 / m)`, for the inverse mass `m`, and a `recalculate` of the current
state sets the linear velocity to `(v * (1.0 / m)) * m`; in exact arithmetic (an ordered
field) and for `m` other than 0, the linear momentum times `m` is `v`, and the linear
velocity is `v` after that `recalculate` and after a `computeAtTime` with timestep 0 and any
derivative. -/
theorem setLinearVelocity_then_recalculate :
    (∀ (Body OBB : Type) (rb : RigidBody Double Body OBB) (v : Vector3D Double),
      (rb.setLinearVelocity v).currentBodyState.linearMomentum =
        v * (1 / rb.currentBodyState.massInverse.value) ∧
      ((rb.setLinearVelocity v).currentBodyState.recalculate Double.sqrt).linearVelocity =
        v * (1 / rb.currentBodyState.massInverse.value) *
          rb.currentBodyState.massInverse.value) ∧
    (∀ (K : Type) [LinearOrderedField K] (Body OBB : Type) (sqrt : K → K)
      (rb : RigidBody K Body OBB) (v : Vector3D K),
      rb.currentBodyState.massInverse.value ≠ 0 →
        (rb.setLinearVelocity v).currentBodyState.linearMomentum *
          (rb.setLinearVelocity v).currentBodyState.massInverse.value = v ∧
        ((rb.setLinearVelocity v).currentBodyState.recalculate sqrt).linearVelocity = v ∧
        ∀ d : DerivativeBodyState K,
          ((rb.setLinearVelocity v).currentBodyState.computeAtTime sqrt ⟨0⟩ d).linearVelocity =
            v) := by
  refine ⟨fun Body OBB rb v => ⟨rfl, rfl⟩, fun K _ Body OBB sqrt rb v hm => ?_⟩
  have h1 : (rb.setLinearVelocity v).currentBodyState.linearMomentum *
      (rb.setLinearVelocity v).currentBodyState.massInverse.value = v := by
    simp only [RigidBody.setLinearVelocity, BodyState.setLinearMomentum,
      BodyState.setLinearVelocity, BodyState.getMassInverse, Kilogram.getValue, vec_hmul_def]
    ext <;> simp only [] <;> field_simp
  have h2 : ((rb.setLinearVelocity v).currentBodyState.recalculate sqrt).linearVelocity = v := h1
  refine ⟨h1, h2, ?_⟩
  intro d
  rw [computeAtTime_zero_eq sqrt _ d]
  exact h2

/-- C16, amended, at two inputs: over `double`, `Example.doubleBody` (inverse mass 49) and
`v = (1, 0, 0)`; and over the reals, `Example.body` (inverse mass `1/2`) and
`v = (1, 2, 3)`. -/
theorem setLinearVelocity_then_recalculate_witness :
    ((Example.doubleBody.setLinearVelocity ⟨1, 0, 0⟩).currentBodyState.recalculate
      Double.sqrt).linearVelocity =
      (⟨1, 0, 0⟩ : Vector3D Double) * (1 / Example.doubleBody.currentBodyState.massInverse.value) *
        Example.doubleBody.currentBodyState.massInverse.value ∧
    (Example.body : RigidBody ℝ Unit Unit).currentBodyState.massInverse.value ≠ 0 ∧
    (((Example.body : RigidBody ℝ Unit Unit).setLinearVelocity
      ⟨1, 2, 3⟩).currentBodyState.recalculate Real.sqrt).linearVelocity = ⟨1, 2, 3⟩ := by
  have hm : (Example.body : RigidBody ℝ Unit Unit).currentBodyState.massInverse.value ≠ 0 := by
    norm_num [Example.body, Example.state]
  exact ⟨(setLinearVelocity_then_recalculate.1 Unit Unit Example.doubleBody ⟨1, 0, 0⟩).2, hm,
    (setLinearVelocity_then_recalculate.2 ℝ Unit Unit Real.sqrt
      (Example.body : RigidBody ℝ Unit Unit) ⟨1, 2, 3⟩ hm).2.1⟩

end DoubleTheorems

end reactphysics3d
